import Mathlib

/-!
Shallow embedding of the bank-account connection subsystem of the backend
(src/routes/bank.ts): the OAuth state store, the token refresh lifecycle
(`ensureKftcAccessToken`), and the `POST /bank/connect` handler with its
push-mode and pull-mode transaction ingestion.

Times are milliseconds since the epoch, modelled as `Int` (JavaScript
`Date.now()`).  JavaScript truthiness on optional strings / numbers is
modelled explicitly (`jsTruthyStr`, `jsTruthyInt`): `""`, `0`, `null` and
`undefined` are falsy.  Network calls (`fetch`) are modelled as an
environment of pre-determined responses; a thrown exception is an
`Except.error` carrying the message.
-/

namespace Bank

/-- JavaScript truthiness of a nullable string: `null`/`undefined` and `""` are falsy. -/
def jsTruthyStr : Option String → Bool
  | some s => s != ""
  | none => false

/-- JavaScript truthiness of a nullable number: `null`/`undefined` and `0` are falsy. -/
def jsTruthyInt : Option Int → Bool
  | some e => e != 0
  | none => false

/-- `a || d` on a nullable string with a (truthy) string default. -/
def jsOrStr (a : Option String) (d : String) : String :=
  if jsTruthyStr a then a.getD "" else d

/-! ## OAuth state store (bank.ts lines 85-105) -/

/-- `STATE_TTL_MS = 10 * 60 * 1000` — 10 minutes. -/
def STATE_TTL_MS : Int := 10 * 60 * 1000

/-- The process-local `stateStore : Map<string, number>` mapping a state
token to its absolute expiry (ms).  Modelled as an association list whose
lookup takes the first matching entry. -/
def StateStore := List (String × Int)

instance : DecidableEq StateStore := by
  unfold StateStore
  infer_instance

/-- `stateStore.get(state)` — first entry with the given key. -/
def stateGet (store : StateStore) (state : String) : Option Int :=
  match store with
  | [] => none
  | (k, v) :: rest => if k = state then some v else stateGet rest state

/-- `stateStore.delete(state)` — remove every entry with the given key. -/
def stateDelete (store : StateStore) (state : String) : StateStore :=
  match store with
  | [] => []
  | (k, v) :: rest =>
    if k = state then stateDelete rest state else (k, v) :: stateDelete rest state

/-- `rememberState(state)` — `stateStore.set(state, Date.now() + STATE_TTL_MS)`.
`Map.set` replaces any previous binding of the key. -/
def rememberState (store : StateStore) (state : String) (now : Int) : StateStore :=
  (state, now + STATE_TTL_MS) :: stateDelete store state

/-- `validateAndConsumeState(state)` (bank.ts lines 96-105): absent token →
`false`; present but `now > expiresAt` → delete, `false`; present and not
expired → delete, `true`.  Returns the result and the updated store. -/
def validateAndConsumeState (store : StateStore) (state : String) (now : Int) :
    Bool × StateStore :=
  match stateGet store state with
  | none => (false, store)
  | some expiresAt =>
    if now > expiresAt then (false, stateDelete store state)
    else (true, stateDelete store state)

/-! ## Persistent rows and database state -/

/-- The user row's KFTC token columns (`UserTokenRow` in bank.ts). -/
structure UserTokenRow where
  kftc_access_token : Option String
  kftc_refresh_token : Option String
  kftc_user_seq_no : Option String
  /-- `kftc_token_expires_at` as ms since epoch; `none` is SQL `NULL`. -/
  kftc_token_expires_at : Option Int
deriving Repr, DecidableEq

/-- Transaction direction, column `type` of `transactions`. -/
inductive TxType where
  | DEPOSIT
  | WITHDRAW
deriving Repr, DecidableEq

/-- A row of the `transactions` table, as inserted by bank.ts. -/
structure TransactionRow where
  user_id : Nat
  account_id : Option Nat
  kftc_tran_id : String
  transacted_at : String
  original_content : Option String
  amount : Int
  balance_after : Option Int
  type : TxType
  method : Option String
  store_name : Option String
  category : Option String
  is_excluded : Bool
  memo : Option String
deriving Repr, DecidableEq

/-- A row of the `bank_accounts` table. -/
structure BankAccountRow where
  id : Nat
  user_id : Nat
  bank_name : String
  account_num : String
  balance : Option Int
deriving Repr, DecidableEq

/-- The database state touched by the bank routes: the `users` token
columns (keyed by user id), `bank_accounts` with its auto-increment
counter, and `transactions`. -/
structure DB where
  users : List (Nat × UserTokenRow)
  bank_accounts : List BankAccountRow
  nextAccountId : Nat
  transactions : List TransactionRow
deriving Repr, DecidableEq

/-- First user row with the given id, if any. -/
def usersLookup : List (Nat × UserTokenRow) → Nat → Option UserTokenRow
  | [], _ => none
  | (k, v) :: rest, userId => if k = userId then some v else usersLookup rest userId

/-- `SELECT ... FROM users WHERE id = ? LIMIT 1`. -/
def lookupUser (db : DB) (userId : Nat) : Option UserTokenRow :=
  usersLookup db.users userId

/-- Replace the token columns of every user row with the given id. -/
def usersUpdate : List (Nat × UserTokenRow) → Nat → UserTokenRow → List (Nat × UserTokenRow)
  | [], _, _ => []
  | (k, v) :: rest, userId, row =>
    if k = userId then (k, row) :: usersUpdate rest userId row
    else (k, v) :: usersUpdate rest userId row

/-- `UPDATE users SET kftc_access_token = ?, kftc_refresh_token = ?,
kftc_user_seq_no = ?, kftc_token_expires_at = ... WHERE id = ?`.
Updates every row with the given id (no error if none matches). -/
def updateUserTokens (db : DB) (userId : Nat) (row : UserTokenRow) : DB :=
  { db with users := usersUpdate db.users userId row }

/-! ## Provider responses -/

/-- The fields of a KFTC token response consumed downstream
(`KftcTokenResponse` in bank.ts, after the JavaScript coercions: the code
reads `access_token ?? null`, `refresh_token ?? null`, `user_seq_no ?? null`
and coerces `expires_in` to a number or `null`). -/
structure KftcTokenResponse where
  access_token : Option String
  refresh_token : Option String
  user_seq_no : Option String
  expires_in : Option Int
deriving Repr, DecidableEq

/-- The field of the KFTC user-info response consumed by connect. -/
structure KftcUserInfo where
  bank_name : Option String
deriving Repr, DecidableEq

/-- One element of the KFTC account list (`KftcAccount` in bank.ts). -/
structure KftcAccount where
  fintech_use_num : String
  bank_name : Option String
  account_num : Option String
  balance_amt : Option Int
deriving Repr, DecidableEq

/-- One raw provider transaction (`KftcTransactionRaw` in bank.ts).
`tran_time` is optional: the mapping code guards it with `?.`. -/
structure KftcTransactionRaw where
  tran_date : String
  tran_time : Option String
  printed_content : Option String
  tran_amt : Int
  inout_type : String
  after_balance_amt : Option Int
  tran_id : Option String
deriving Repr, DecidableEq

/-- Pre-determined outcomes of the network calls made by the bank routes.
An `Except.error` models a thrown exception (non-2xx upstream status or a
JSON parse failure), carrying the error message.  `production` is
`process.env.NODE_ENV === 'production'`. -/
structure ProviderEnv where
  exchangeResp : Except String KftcTokenResponse
  refreshResp : Except String KftcTokenResponse
  userInfoResp : Except String KftcUserInfo
  accountsResp : Except String (List KftcAccount)
  txResp : String → Option String → Option String → Except String (List KftcTransactionRaw)
  production : Bool

/-! ## ensureKftcAccessToken (bank.ts lines 189-243) -/

/-- `bufferMs = 2 * 60 * 1000` — the 2-minute validity buffer. -/
def bufferMs : Int := 2 * 60 * 1000

/-- Whether a stored token row is usable without a refresh: access token
present and non-empty, expiry known (a non-`NULL`, non-epoch timestamp)
and more than the buffer window in the future. -/
def tokenUsable (row : UserTokenRow) (now : Int) : Bool :=
  match row.kftc_access_token, row.kftc_token_expires_at with
  | some a, some e => a != "" && e != 0 && decide (e - now > bufferMs)
  | _, _ => false

/-- Output of `ensureKftcAccessToken`: the returned token or the thrown
error message, the database after the call, and how many refresh network
calls were made. -/
structure EnsureOutput where
  result : Except String String
  db : DB
  refreshCalls : Nat
deriving Repr

instance : DecidableEq (Except String String) := fun a b =>
  match a, b with
  | Except.ok x, Except.ok y =>
    if h : x = y then isTrue (by rw [h]) else isFalse (by intro hc; cases hc; exact h rfl)
  | Except.error x, Except.error y =>
    if h : x = y then isTrue (by rw [h]) else isFalse (by intro hc; cases hc; exact h rfl)
  | Except.ok _, Except.error _ => isFalse (by intro hc; cases hc)
  | Except.error _, Except.ok _ => isFalse (by intro hc; cases hc)

instance : DecidableEq EnsureOutput := fun a b =>
  match a, b with
  | ⟨r₁, d₁, c₁⟩, ⟨r₂, d₂, c₂⟩ =>
    if h : r₁ = r₂ ∧ d₁ = d₂ ∧ c₁ = c₂ then
      isTrue (by obtain ⟨h1, h2, h3⟩ := h; rw [h1, h2, h3])
    else
      isFalse (by intro hc; cases hc; exact h ⟨rfl, rfl, rfl⟩)

/-- `ensureKftcAccessToken(userId, requestedScope)` (bank.ts lines 189-243).

Loads the user's token row (`user_not_found` if absent).  The cached token
is usable iff `!!kftc_access_token && !!expiresAt && expiresAt - now >
bufferMs` (JavaScript truthiness: `""` and a 0-ms expiry are falsy).  If
usable it is returned with no network call.  Otherwise a stored refresh
token is required (`refresh_token_missing`); exactly one refresh call is
made; a response with no (truthy) `access_token` throws
`refresh_response_missing_access_token` without persisting; otherwise the
new token set is persisted in one update — new access token, response
refresh token `??` old, response `user_seq_no` `??` old, and
`kftc_token_expires_at = NOW() + (expires_in ?? 0)` seconds. -/
def ensureKftcAccessToken (env : ProviderEnv) (db : DB) (userId : Nat) (now : Int) :
    EnsureOutput :=
  match lookupUser db userId with
  | none => ⟨Except.error "user_not_found", db, 0⟩
  | some row =>
    let isValid := jsTruthyStr row.kftc_access_token
      && jsTruthyInt row.kftc_token_expires_at
      && decide (row.kftc_token_expires_at.getD 0 - now > bufferMs)
    if isValid then ⟨Except.ok (row.kftc_access_token.getD ""), db, 0⟩
    else if ¬ jsTruthyStr row.kftc_refresh_token then
      ⟨Except.error "refresh_token_missing", db, 0⟩
    else
      match env.refreshResp with
      | Except.error e => ⟨Except.error e, db, 1⟩
      | Except.ok refreshed =>
        let accessToken := refreshed.access_token
        let refreshToken := refreshed.refresh_token.orElse (fun _ => row.kftc_refresh_token)
        let userSeqNo := refreshed.user_seq_no.orElse (fun _ => row.kftc_user_seq_no)
        let expiresIn := refreshed.expires_in
        if ¬ jsTruthyStr accessToken then
          ⟨Except.error "refresh_response_missing_access_token", db, 1⟩
        else
          let tok := accessToken.getD ""
          let newRow : UserTokenRow :=
            { kftc_access_token := some tok
              kftc_refresh_token := refreshToken
              kftc_user_seq_no := userSeqNo
              kftc_token_expires_at := some (now + 1000 * expiresIn.getD 0) }
          ⟨Except.ok tok, updateUserTokens db userId newRow, 1⟩

/-! ## Ingestion pipeline (bank.ts lines 330-354 and 462-552) -/

/-- A client-submitted transaction (`IncomingTransaction` in bank.ts). -/
structure IncomingTransaction where
  kftc_tran_id : String
  transacted_at : String
  original_content : Option String
  amount : Int
  balance_after : Option Int
  type : TxType
  method : Option String
  store_name : Option String
  category : Option String
  is_excluded : Option Bool
  memo : Option String
  account_id : Option Nat
deriving Repr, DecidableEq

/-- The push-mode value row built from a client-submitted transaction
(bank.ts lines 464-478): fields passed through, `is_excluded ?? false`. -/
def pushRow (userId : Nat) (t : IncomingTransaction) : TransactionRow :=
  { user_id := userId
    account_id := t.account_id
    kftc_tran_id := t.kftc_tran_id
    transacted_at := t.transacted_at
    original_content := t.original_content
    amount := t.amount
    balance_after := t.balance_after
    type := t.type
    method := t.method
    store_name := t.store_name
    category := t.category
    is_excluded := t.is_excluded.getD false
    memo := t.memo }

/-- JavaScript `s.substring(start, start + 2)`: indices clamped to the
string length, so a short string yields a short (possibly empty) piece. -/
def jsSubstring2 (s : String) (start : Nat) : String :=
  String.mk ((s.toList.drop start).take 2)

/-- `t.tran_time?.substring(start, start+2) || '00'` — `undefined` and the
empty substring both fall back to `"00"`. -/
def timePart (tran_time : Option String) (start : Nat) : String :=
  match tran_time with
  | none => "00"
  | some s => if jsSubstring2 s start = "" then "00" else jsSubstring2 s start

/-- Template-literal rendering of a nullable string: JavaScript prints
`undefined` for a missing value. -/
def jsTemplate (o : Option String) : String :=
  match o with
  | some s => s
  | none => "undefined"

/-- The fallback dedup key
``{tran_date}-{tran_time}-{printed_content ?? ''}-{tran_amt}`` used when
`tran_id` is falsy (bank.ts line 513). -/
def fallbackTranId (t : KftcTransactionRaw) : String :=
  t.tran_date ++ "-" ++ jsTemplate t.tran_time ++ "-" ++
    (t.printed_content.getD "") ++ "-" ++ toString t.tran_amt

/-- The pull-mode value row built from one raw provider transaction
(bank.ts lines 508-530): timestamp `` `${tran_date}T${hh}:${mm}:${ss}` ``,
dedup key `tran_id ||` fallback, direction `입금 → DEPOSIT` else
`WITHDRAW`, `printed_content` reused as `store_name`, `category` unset. -/
def pullRow (userId : Nat) (accountId : Option Nat) (t : KftcTransactionRaw) :
    TransactionRow :=
  let hh := timePart t.tran_time 0
  let mm := timePart t.tran_time 2
  let ss := timePart t.tran_time 4
  let isoDate := t.tran_date ++ "T" ++ hh ++ ":" ++ mm ++ ":" ++ ss
  let kftcTranId := if jsTruthyStr t.tran_id then t.tran_id.getD "" else fallbackTranId t
  let txType := if t.inout_type = "입금" then TxType.DEPOSIT else TxType.WITHDRAW
  { user_id := userId
    account_id := accountId
    kftc_tran_id := kftcTranId
    transacted_at := isoDate
    original_content := t.printed_content
    amount := t.tran_amt
    balance_after := t.after_balance_amt
    type := txType
    method := none
    store_name := t.printed_content
    category := none
    is_excluded := false
    memo := none }

/-- Whether a row with the dedup key `(userId, kftc_tran_id)` is present. -/
def txKeyExists (rows : List TransactionRow) (userId : Nat) (tranId : String) : Bool :=
  rows.any (fun r => r.user_id == userId && r.kftc_tran_id == tranId)

/-- Modelled from the spec: the `transactions` table's schema (not under
src/) declares the dedup key `(user_id, kftc_tran_id)` UNIQUE-per-user
("`transactions(user_id, ..., provider_transaction_id UNIQUE-per-user, ...)`"),
so MySQL `INSERT IGNORE ... VALUES ?` processes the value rows in order and
silently skips any row whose dedup key already exists, erroring on nothing
and overwriting nothing. -/
def insertIgnoreTransactions (rows : List TransactionRow)
    (values : List TransactionRow) : List TransactionRow :=
  match values with
  | [] => rows
  | v :: rest =>
    if txKeyExists rows v.user_id v.kftc_tran_id then
      insertIgnoreTransactions rows rest
    else
      insertIgnoreTransactions (rows ++ [v]) rest

/-- The `WHERE user_id = ? AND account_num = ?` predicate of
`upsertBankAccount`. -/
def accMatches (userId : Nat) (key : String) (r : BankAccountRow) : Bool :=
  r.user_id == userId && r.account_num == key

/-- `upsertBankAccount(userId, acc)` (bank.ts lines 330-354): the natural
key is `account_num || fintech_use_num` (`null` if falsy); an existing
`(user_id, account_num)` row (found by `SELECT ... LIMIT 1`, used when its
id is truthy) gets its `bank_name` and `balance` updated and its id
returned; otherwise a fresh row is inserted and its auto-increment id
returned. -/
def upsertBankAccount (db : DB) (userId : Nat) (acc : KftcAccount) :
    Option Nat × DB :=
  if jsOrStr acc.account_num acc.fintech_use_num = "" then (none, db)
  else
    match db.bank_accounts.find?
        (accMatches userId (jsOrStr acc.account_num acc.fintech_use_num)) with
    | some existing =>
      if existing.id ≠ 0 then
        (some existing.id,
         { db with bank_accounts := db.bank_accounts.map (fun r =>
             if r.id = existing.id then
               { r with bank_name := acc.bank_name.getD "unknown",
                        balance := acc.balance_amt }
             else r) })
      else
        (some db.nextAccountId,
         { db with
           bank_accounts := db.bank_accounts ++
             [⟨db.nextAccountId, userId, acc.bank_name.getD "unknown",
               jsOrStr acc.account_num acc.fintech_use_num, acc.balance_amt⟩],
           nextAccountId := db.nextAccountId + 1 })
    | none =>
      (some db.nextAccountId,
       { db with
         bank_accounts := db.bank_accounts ++
           [⟨db.nextAccountId, userId, acc.bank_name.getD "unknown",
             jsOrStr acc.account_num acc.fintech_use_num, acc.balance_amt⟩],
         nextAccountId := db.nextAccountId + 1 })

/-- How many `bank_accounts` rows carry the natural key `(userId, key)`. -/
def keyCount (db : DB) (userId : Nat) (key : String) : Nat :=
  db.bank_accounts.countP (accMatches userId key)

/-- The `bank_accounts` table invariant: ids are positive, below the
auto-increment counter and pairwise distinct, and the natural key
`(user_id, account_num)` appears on at most one row. -/
def accountsInv (db : DB) : Prop :=
  (∀ r ∈ db.bank_accounts, 0 < r.id ∧ r.id < db.nextAccountId) ∧
  0 < db.nextAccountId ∧
  db.bank_accounts.Pairwise (fun a b => a.id ≠ b.id) ∧
  db.bank_accounts.Pairwise (fun a b => ¬ (a.user_id = b.user_id ∧ a.account_num = b.account_num))

instance (db : DB) : Decidable (accountsInv db) := by
  unfold accountsInv
  infer_instance

/-! ## POST /bank/connect (bank.ts lines 405-564) -/

/-- The request body of `POST /bank/connect` (`ConnectRequestBody`). -/
structure ConnectBody where
  kftcAuthCode : Option String
  scope : Option String
  bankName : Option String
  transactions : Option (List IncomingTransaction)
  fromDate : Option String
  toDate : Option String
deriving Repr, DecidableEq

/-- One element of the response `transactions` array (bank.ts 487-493). -/
structure RespTx where
  kftc_tran_id : String
  transacted_at : String
  store_name : Option String
  category : Option String
  amount : Int
deriving Repr, DecidableEq

/-- The response projection of a value row. -/
def respOf (r : TransactionRow) : RespTx :=
  ⟨r.kftc_tran_id, r.transacted_at, r.store_name, r.category, r.amount⟩

/-- The HTTP outcome of `POST /bank/connect`. -/
inductive ConnectResult where
  /-- `400 {error}` — missing `kftcAuthCode`. -/
  | badRequest (error : String)
  /-- `401 {error: 'unauthorized'}`. -/
  | unauthorized
  /-- `200 {status: 'SYNC_COMPLETED', bankName, transactions}`. -/
  | syncCompleted (bankName : String) (transactions : List RespTx)
  /-- `502 {error, detail}` — `detail` is absent when the handler omits it. -/
  | badGateway (error : String) (detail : Option String)
deriving Repr, DecidableEq

/-- Output of the connect handler: the HTTP result and the database state
after the request. -/
structure ConnectOutput where
  result : ConnectResult
  db : DB
deriving Repr, DecidableEq

/-- The token row persisted by connect right after a successful exchange
(bank.ts lines 437-451): `refresh_token ?? null`, `user_seq_no ?? null`,
expiry `NOW() + (expires_in ?? 0)` seconds. -/
def exchangeTokenRow (tr : KftcTokenResponse) (now : Int) : UserTokenRow :=
  { kftc_access_token := some (tr.access_token.getD "")
    kftc_refresh_token := tr.refresh_token
    kftc_user_seq_no := tr.user_seq_no
    kftc_token_expires_at := some (now + 1000 * tr.expires_in.getD 0) }

/-- Non-production rendering of the token response for the
`invalid_kftc_response` 502 `detail` field. -/
def describeTokenResponse (r : KftcTokenResponse) : String :=
  "access_token=" ++ jsTemplate r.access_token ++
    " refresh_token=" ++ jsTemplate r.refresh_token ++
    " user_seq_no=" ++ jsTemplate r.user_seq_no

/-- The pull-mode per-account loop (bank.ts lines 502-534): for every
provider account, upsert the bank-account row, skip history when
`fintech_use_num` is falsy, fetch the account's history (a thrown fetch
error aborts the loop, keeping all database writes made so far), and map
the raw records to value rows, accumulating across accounts. -/
def pullLoop (env : ProviderEnv) (userId : Nat) (fromDate toDate : Option String)
    (db : DB) (accs : List KftcAccount) :
    Except (String × DB) (DB × List TransactionRow) :=
  match accs with
  | [] => Except.ok (db, [])
  | acc :: rest =>
    if acc.fintech_use_num = "" then
      pullLoop env userId fromDate toDate (upsertBankAccount db userId acc).2 rest
    else
      match env.txResp acc.fintech_use_num fromDate toDate with
      | Except.error e => Except.error (e, (upsertBankAccount db userId acc).2)
      | Except.ok rawList =>
        match pullLoop env userId fromDate toDate (upsertBankAccount db userId acc).2 rest with
        | Except.error x => Except.error x
        | Except.ok (db2, vals) =>
          Except.ok (db2,
            rawList.map (pullRow userId (upsertBankAccount db userId acc).1) ++ vals)

/-- Pull mode's response bank name (bank.ts lines 453, 496-497): the
request's `bankName || 'unknown'`, overridden by a truthy
`userInfo.bank_name`. -/
def pullBankName (userInfo : KftcUserInfo) (body : ConnectBody) : String :=
  if jsTruthyStr userInfo.bank_name then userInfo.bank_name.getD ""
  else jsOrStr body.bankName "unknown"

/-- The pull-mode tail of connect (bank.ts lines 494-552): fetch user
info, account list and per-account histories, then insert the combined
value rows of all accounts with a single `INSERT IGNORE` (only when the
combined list is non-empty).  Any thrown error is caught by the handler's
catch-all, producing `502 {error: 'Failed to exchange kftcAuthCode',
detail}` while keeping the database writes already made. -/
def connectPull (env : ProviderEnv) (userId : Nat) (body : ConnectBody)
    (db1 : DB) : ConnectOutput :=
  match env.userInfoResp with
  | Except.error e => ⟨ConnectResult.badGateway "Failed to exchange kftcAuthCode" (some e), db1⟩
  | Except.ok userInfo =>
    match env.accountsResp with
    | Except.error e => ⟨ConnectResult.badGateway "Failed to exchange kftcAuthCode" (some e), db1⟩
    | Except.ok accounts =>
      match pullLoop env userId body.fromDate body.toDate db1 accounts with
      | Except.error (e, db2) =>
        ⟨ConnectResult.badGateway "Failed to exchange kftcAuthCode" (some e), db2⟩
      | Except.ok (db2, allValues) =>
        if allValues.length > 0 then
          ⟨ConnectResult.syncCompleted (pullBankName userInfo body) (allValues.map respOf),
           { db2 with transactions := insertIgnoreTransactions db2.transactions allValues }⟩
        else
          ⟨ConnectResult.syncCompleted (pullBankName userInfo body) [], db2⟩

/-- The `POST /bank/connect` handler (bank.ts lines 405-564).

Falsy `kftcAuthCode` → 400; no authenticated user → 401.  The auth code is
exchanged; a thrown exchange error → `502 {error: 'Failed to exchange
kftcAuthCode', detail: message}` with nothing persisted.  A response whose
`access_token` is falsy → `502 {error: 'invalid_kftc_response'}`, with the
response as `detail` unless `NODE_ENV === 'production'`, nothing
persisted.  Otherwise the token set is persisted (`refresh_token ?? null`,
`user_seq_no ?? null`, expiry `NOW() + (expires_in ?? 0)` seconds), then:
push mode — a non-empty `transactions` array is mapped to value rows and
inserted with one `INSERT IGNORE`, echoing the rows back; pull mode —
otherwise `connectPull`.  Split into the post-authentication body
(`connectAuthed`) and the wrapping guards (`connect`). -/
def connectAuthed (env : ProviderEnv) (now : Int) (uid : Nat)
    (body : ConnectBody) (db : DB) : ConnectOutput :=
  match env.exchangeResp with
  | Except.error e =>
    ⟨ConnectResult.badGateway "Failed to exchange kftcAuthCode" (some e), db⟩
  | Except.ok tokenResponse =>
    if ¬ jsTruthyStr tokenResponse.access_token then
      ⟨ConnectResult.badGateway "invalid_kftc_response"
        (if env.production then none else some (describeTokenResponse tokenResponse)), db⟩
    else
      match body.transactions with
      | some ts =>
        if ts.length > 0 then
          ⟨ConnectResult.syncCompleted (jsOrStr body.bankName "unknown")
            ((ts.map (pushRow uid)).map respOf),
           { updateUserTokens db uid (exchangeTokenRow tokenResponse now) with
             transactions := insertIgnoreTransactions
               (updateUserTokens db uid (exchangeTokenRow tokenResponse now)).transactions
               (ts.map (pushRow uid)) }⟩
        else
          connectPull env uid body (updateUserTokens db uid (exchangeTokenRow tokenResponse now))
      | none =>
        connectPull env uid body (updateUserTokens db uid (exchangeTokenRow tokenResponse now))

/-- The outer guards of `POST /bank/connect`: falsy `kftcAuthCode` → 400,
missing authenticated user → 401, otherwise `connectAuthed`. -/
def connect (env : ProviderEnv) (now : Int) (userId : Option Nat)
    (body : ConnectBody) (db : DB) : ConnectOutput :=
  if ¬ jsTruthyStr body.kftcAuthCode then
    ⟨ConnectResult.badRequest "kftcAuthCode is required", db⟩
  else
    match userId with
    | none => ⟨ConnectResult.unauthorized, db⟩
    | some uid => connectAuthed env now uid body db

/-! ## Concrete sample instances -/

/-- A full token response: access, refresh, user_seq_no and expiry. -/
def trFull : KftcTokenResponse := ⟨some "T1", some "R1", some "U1", some 3600⟩

/-- A token response with no `access_token` (and nothing else). -/
def trNoAccess : KftcTokenResponse := ⟨none, none, none, none⟩

/-- A refresh response carrying only a new access token — no refresh
token, no `user_seq_no`, no `expires_in`. -/
def trOnlyAccess : KftcTokenResponse := ⟨some "T2", none, none, none⟩

/-- An environment in which every provider call succeeds. -/
def envOk : ProviderEnv :=
  ⟨Except.ok trFull, Except.ok trFull, Except.ok ⟨some "KB"⟩, Except.ok [],
    fun _ _ _ => Except.ok [], false⟩

/-- An environment whose exchange throws (non-2xx upstream). -/
def envExchangeFails : ProviderEnv :=
  ⟨Except.error "exchange_http_500", Except.ok trFull, Except.ok ⟨some "KB"⟩, Except.ok [],
    fun _ _ _ => Except.ok [], false⟩

/-- A non-production environment whose exchange succeeds with a token
response that carries no `access_token`. -/
def envNoAccess : ProviderEnv :=
  ⟨Except.ok trNoAccess, Except.ok trNoAccess, Except.ok ⟨some "KB"⟩, Except.ok [],
    fun _ _ _ => Except.ok [], false⟩

/-- A production environment whose exchange succeeds with a token response
that carries no `access_token`. -/
def envProdNoAccess : ProviderEnv :=
  ⟨Except.ok trNoAccess, Except.ok trNoAccess, Except.ok ⟨some "KB"⟩, Except.ok [],
    fun _ _ _ => Except.ok [], true⟩

/-- Like `envOk`, but the refresh endpoint answers with a bare access
token (`trOnlyAccess`): no refresh token, no `user_seq_no`, no
`expires_in`. -/
def envRefreshOnlyAccess : ProviderEnv :=
  ⟨Except.ok trFull, Except.ok trOnlyAccess, Except.ok ⟨some "KB"⟩, Except.ok [],
    fun _ _ _ => Except.ok [], false⟩

/-- Like `envOk`, but the refresh endpoint answers with a response that
has no `access_token`. -/
def envRefreshNoAccess : ProviderEnv :=
  ⟨Except.ok trFull, Except.ok trNoAccess, Except.ok ⟨some "KB"⟩, Except.ok [],
    fun _ _ _ => Except.ok [], false⟩

/-- One user (id 1) with no stored token columns at all. -/
def dbNoTok : DB := ⟨[(1, ⟨none, none, none, none⟩)], [], 1, []⟩

/-- One user (id 1) with no usable access token but a stored refresh
token and `user_seq_no`. -/
def dbStale : DB := ⟨[(1, ⟨none, some "R", some "U", none⟩)], [], 1, []⟩

/-- One user (id 1) with a cached access token expiring at t = 1000000 ms. -/
def dbFresh : DB := ⟨[(1, ⟨some "A", some "R", none, some 1000000⟩)], [], 1, []⟩

/-- A client-submitted transaction with provider id `P1`. -/
def incP1 : IncomingTransaction :=
  ⟨"P1", "2024-01-01T00:00:00", none, 1000, none, TxType.DEPOSIT,
    none, none, none, none, none, none⟩

/-- A second client-submitted transaction, identical except for id `P2`. -/
def incP2 : IncomingTransaction :=
  ⟨"P2", "2024-01-01T00:00:00", none, 1000, none, TxType.DEPOSIT,
    none, none, none, none, none, none⟩

/-- A connect body pushing the single transaction `P1`. -/
def bodyPushP1 : ConnectBody := ⟨some "abc", none, none, some [incP1], none, none⟩

/-- A connect body pushing `P1` and `P2`. -/
def bodyPushP1P2 : ConnectBody := ⟨some "abc", none, none, some [incP1, incP2], none, none⟩

/-- A connect body with no `transactions` field — pull mode. -/
def bodyPull : ConnectBody := ⟨some "abc", none, none, none, none, none⟩

/-- Like `dbNoTok` but with the `P1` transaction already stored for user 1. -/
def dbWithP1 : DB := ⟨[(1, ⟨none, none, none, none⟩)], [], 1, [pushRow 1 incP1]⟩

/-- A provider account with a real account number. -/
def accA : KftcAccount := ⟨"fA", some "KB", some "111", some 500⟩

/-- A second provider account. -/
def accB : KftcAccount := ⟨"fB", some "KB", some "222", none⟩

/-- A raw provider transaction with a provider id. -/
def rawT1 : KftcTransactionRaw :=
  ⟨"20240101", some "123456", some "coffee", 1000, "입금", some 5000, some "TID1"⟩

/-- An environment where the exchange succeeds, accounts `accA` and `accB`
are listed, `accA`'s history yields one transaction, and fetching `accB`'s
history throws. -/
def envTwoAccounts : ProviderEnv :=
  ⟨Except.ok trFull, Except.ok trFull, Except.ok ⟨some "KB"⟩, Except.ok [accA, accB],
    fun f _ _ => if f = "fA" then Except.ok [rawT1] else Except.error "history_fetch_failed",
    false⟩

/-- A connect body whose `transactions` field is the empty array. -/
def bodyPullEmpty : ConnectBody := ⟨some "abc", none, none, some [], none, none⟩

/-- Like `envOk`, but the user-info fetch throws. -/
def envUserInfoFails : ProviderEnv :=
  ⟨Except.ok trFull, Except.ok trFull, Except.error "userinfo_http_500", Except.ok [],
    fun _ _ _ => Except.ok [], false⟩

/-- A second raw provider transaction, on the withdrawal side. -/
def rawT2 : KftcTransactionRaw :=
  ⟨"20240102", some "010203", some "tea", 2000, "출금", none, some "TID2"⟩

/-- Like `envTwoAccounts`, but both account histories succeed. -/
def envTwoAccountsOk : ProviderEnv :=
  ⟨Except.ok trFull, Except.ok trFull, Except.ok ⟨some "KB"⟩, Except.ok [accA, accB],
    fun f _ _ => if f = "fA" then Except.ok [rawT1] else Except.ok [rawT2],
    false⟩

/-- `dbNoTok` after upserting `accA` (id 1) and `accB` (id 2). -/
def dbTwoAccts : DB :=
  ⟨[(1, ⟨none, none, none, none⟩)],
   [⟨1, 1, "KB", "111", some 500⟩, ⟨2, 1, "KB", "222", none⟩], 3, []⟩

/-- The `YYYY-MM-DDTHH:MM:SS` composition asserted by the specification:
the `YYYYMMDD` provider date is split with dashes and glued to the time
parts.  Written from the spec wording, to compare with what the code
builds. -/
def claimDashTimestamp (tran_date hh mm ss : String) : String :=
  String.mk (tran_date.toList.take 4) ++ "-" ++
    String.mk ((tran_date.toList.drop 4).take 2) ++ "-" ++
    String.mk ((tran_date.toList.drop 6).take 2) ++ "T" ++ hh ++ ":" ++ mm ++ ":" ++ ss

/-! ## Lemmas about the state store -/

lemma stateGet_stateDelete (store : StateStore) (s : String) :
    stateGet (stateDelete store s) s = none := by
  induction store with
  | nil => rfl
  | cons p rest ih =>
    obtain ⟨k, v⟩ := p
    by_cases h : k = s
    · simpa [stateDelete, h] using ih
    · simpa [stateDelete, stateGet, h] using ih

lemma validateAndConsumeState_absent (store : StateStore) (s : String) (now : Int)
    (h : stateGet store s = none) :
    validateAndConsumeState store s now = (false, store) := by
  simp [validateAndConsumeState, h]

/-- C3: a state issued by `rememberState` is single-use: consumed at or
before its expiry it validates `true` exactly once, and every later call on
the same token returns `false`; consumed after its 10-minute TTL it
returns `false`, the entry is removed, and a second call also returns
`false`; a token never issued validates `false`. -/
theorem state_token_single_use (store : StateStore) (tok : String) (t0 t1 t2 : Int) :
    (t1 ≤ t0 + STATE_TTL_MS →
      (validateAndConsumeState (rememberState store tok t0) tok t1).1 = true ∧
      (validateAndConsumeState
        (validateAndConsumeState (rememberState store tok t0) tok t1).2 tok t2).1 = false) ∧
    (t0 + STATE_TTL_MS < t1 →
      (validateAndConsumeState (rememberState store tok t0) tok t1).1 = false ∧
      stateGet (validateAndConsumeState (rememberState store tok t0) tok t1).2 tok = none ∧
      (validateAndConsumeState
        (validateAndConsumeState (rememberState store tok t0) tok t1).2 tok t2).1 = false) ∧
    (stateGet store tok = none →
      (validateAndConsumeState store tok t1).1 = false) := by
  have hget : stateGet (rememberState store tok t0) tok = some (t0 + STATE_TTL_MS) := by
    simp [rememberState, stateGet]
  have hdel : stateDelete (rememberState store tok t0) tok =
      stateDelete (stateDelete store tok) tok := by
    simp [rememberState, stateDelete]
  refine ⟨fun h => ?_, fun h => ?_, fun h => ?_⟩
  · have hnot : ¬ t1 > t0 + STATE_TTL_MS := not_lt.mpr h
    constructor
    · simp [validateAndConsumeState, hget, hnot]
    · have h2 : (validateAndConsumeState (rememberState store tok t0) tok t1).2 =
          stateDelete (stateDelete store tok) tok := by
        simp [validateAndConsumeState, hget, hnot, hdel]
      rw [h2, validateAndConsumeState_absent _ _ _ (stateGet_stateDelete _ _)]
  · refine ⟨by simp [validateAndConsumeState, hget, h], ?_, ?_⟩
    · have h2 : (validateAndConsumeState (rememberState store tok t0) tok t1).2 =
          stateDelete (stateDelete store tok) tok := by
        simp [validateAndConsumeState, hget, h, hdel]
      rw [h2]
      exact stateGet_stateDelete _ _
    · have h2 : (validateAndConsumeState (rememberState store tok t0) tok t1).2 =
          stateDelete (stateDelete store tok) tok := by
        simp [validateAndConsumeState, hget, h, hdel]
      rw [h2, validateAndConsumeState_absent _ _ _ (stateGet_stateDelete _ _)]
  · rw [validateAndConsumeState_absent _ _ _ h]

/-- Witness for the C3 theorem at a concrete token and concrete times. -/
theorem state_token_single_use_witness :
    ((validateAndConsumeState (rememberState [] "s" 0) "s" 1).1 = true ∧
      (validateAndConsumeState
        (validateAndConsumeState (rememberState [] "s" 0) "s" 1).2 "s" 2).1 = false) ∧
    (validateAndConsumeState (rememberState [] "s" 0) "s" 600001).1 = false ∧
    (validateAndConsumeState ([] : StateStore) "never" 0).1 = false := by
  refine ⟨(state_token_single_use [] "s" 0 1 2).1 (by decide), ?_, ?_⟩
  · exact ((state_token_single_use [] "s" 0 600001 2).2.1 (by decide)).1
  · exact (state_token_single_use [] "never" 0 0 0).2.2 (by decide)

/-! ## Token lifecycle (C2, C5) -/

lemma tokenUsable_eq_isValid (row : UserTokenRow) (now : Int) :
    tokenUsable row now =
      (jsTruthyStr row.kftc_access_token && jsTruthyInt row.kftc_token_expires_at &&
        decide (row.kftc_token_expires_at.getD 0 - now > bufferMs)) := by
  cases h1 : row.kftc_access_token <;> cases h2 : row.kftc_token_expires_at <;>
    simp [tokenUsable, jsTruthyStr, jsTruthyInt, h1, h2]

/-- C2 (amended): when the stored token row is usable (access token
present and non-empty, expiry known and more than the 2-minute buffer
ahead of `now`), `ensureKftcAccessToken` returns the cached token with no
refresh call and no database write; when the row is not usable and a
refresh token is stored it makes exactly one refresh call; when the row is
not usable and no refresh token is stored it fails with
`refresh_token_missing`, making no refresh call. -/
theorem ensure_token_refresh_policy (env : ProviderEnv) (db : DB) (userId : Nat)
    (now : Int) (row : UserTokenRow) (hLook : lookupUser db userId = some row) :
    (tokenUsable row now = true →
      ensureKftcAccessToken env db userId now =
        ⟨Except.ok (row.kftc_access_token.getD ""), db, 0⟩) ∧
    (tokenUsable row now = false → jsTruthyStr row.kftc_refresh_token = true →
      (ensureKftcAccessToken env db userId now).refreshCalls = 1) ∧
    (tokenUsable row now = false → jsTruthyStr row.kftc_refresh_token = false →
      ensureKftcAccessToken env db userId now =
        ⟨Except.error "refresh_token_missing", db, 0⟩) := by
  unfold ensureKftcAccessToken
  rw [hLook]
  refine ⟨fun hU => ?_, fun hS hR => ?_, fun hS hR => ?_⟩
  · rw [tokenUsable_eq_isValid] at hU
    simp only [hU, if_true]
  · rw [tokenUsable_eq_isValid] at hS
    simp only [hS, Bool.false_eq_true, if_false, hR, not_true_eq_false]
    cases env.refreshResp with
    | error e => simp
    | ok refreshed =>
      by_cases hA : jsTruthyStr refreshed.access_token
      · simp [hA]
      · simp [hA]
  · rw [tokenUsable_eq_isValid] at hS
    simp [hS, hR]

/-- Witness for the C2 theorem: user 1 of `dbFresh` has a token valid far
beyond the buffer at `now = 0`, so no refresh call is made; user 1 of
`dbStale` has no usable token but a refresh token, so exactly one refresh
call is made. -/
theorem ensure_token_refresh_policy_witness :
    (ensureKftcAccessToken envOk dbFresh 1 0 =
      ⟨Except.ok "A", dbFresh, 0⟩) ∧
    (ensureKftcAccessToken envOk dbStale 1 0).refreshCalls = 1 :=
  ⟨(ensure_token_refresh_policy envOk dbFresh 1 0 ⟨some "A", some "R", none, some 1000000⟩
      (by decide)).1 (by decide),
   (ensure_token_refresh_policy envOk dbStale 1 0 ⟨none, some "R", some "U", none⟩
      (by decide)).2.1 (by decide) (by decide)⟩

/-- C2 counterexample: for user 1 of `dbNoTok` the cached access token is
absent, yet `ensureKftcAccessToken` makes zero refresh calls (it throws
`refresh_token_missing` before any network call), contradicting the
claim's "whenever the cached token is within the buffer window or absent,
it makes exactly one refresh call". -/
theorem ensure_absent_token_no_refresh_call_cx :
    lookupUser dbNoTok 1 = some ⟨none, none, none, none⟩ ∧
    (ensureKftcAccessToken envOk dbNoTok 1 0).refreshCalls = 0 ∧
    (ensureKftcAccessToken envOk dbNoTok 1 0).result =
      Except.error "refresh_token_missing" := by
  refine ⟨by decide, by decide, by decide⟩

/-- C5 (amended): after a successful refresh, `ensureKftcAccessToken`
persists the token set in one single update whose access token is the new
one, whose refresh token and `user_seq_no` fall back (`??`) to the stored
values when the response omits them, and whose expiry is
`now + expires_in` seconds — with an absent `expires_in` defaulting to 0,
so the persisted expiry is `now` (not `NULL`); a refresh response with no
access token fails with `refresh_response_missing_access_token` and
persists nothing. -/
theorem refresh_persist_token_set (env : ProviderEnv) (db : DB) (userId : Nat)
    (now : Int) (row : UserTokenRow) (refreshed : KftcTokenResponse)
    (hLook : lookupUser db userId = some row)
    (hStale : tokenUsable row now = false)
    (hRT : jsTruthyStr row.kftc_refresh_token = true)
    (hResp : env.refreshResp = Except.ok refreshed) :
    (∀ a, refreshed.access_token = some a → a ≠ "" →
      ensureKftcAccessToken env db userId now =
        ⟨Except.ok a,
         updateUserTokens db userId
           { kftc_access_token := some a
             kftc_refresh_token := refreshed.refresh_token.orElse
               (fun _ => row.kftc_refresh_token)
             kftc_user_seq_no := refreshed.user_seq_no.orElse
               (fun _ => row.kftc_user_seq_no)
             kftc_token_expires_at := some (now + 1000 * refreshed.expires_in.getD 0) },
         1⟩) ∧
    (jsTruthyStr refreshed.access_token = false →
      ensureKftcAccessToken env db userId now =
        ⟨Except.error "refresh_response_missing_access_token", db, 1⟩) := by
  unfold ensureKftcAccessToken
  rw [hLook]
  rw [tokenUsable_eq_isValid] at hStale
  constructor
  · intro a hA hNe
    simp only [hStale, Bool.false_eq_true, if_false]
    rw [if_neg (by simp [hRT]), hResp]
    simp [hA, jsTruthyStr, hNe]
  · intro hF
    simp only [hStale, Bool.false_eq_true, if_false]
    rw [if_neg (by simp [hRT]), hResp]
    simp [hF]

/-- Witness for the C5 theorem: refreshing the stale user 1 of `dbStale`
at `now = 5000` with a bare-access-token response persists access token
`T2`, keeps the old refresh token `R` and `user_seq_no` `U`, and sets the
expiry to `now` itself; the same user against a refresh response with no
access token fails with `refresh_response_missing_access_token` and
leaves the database unchanged. -/
theorem refresh_persist_token_set_witness :
    (ensureKftcAccessToken envRefreshOnlyAccess dbStale 1 5000 =
      ⟨Except.ok "T2",
       updateUserTokens dbStale 1 ⟨some "T2", some "R", some "U", some 5000⟩, 1⟩) ∧
    (ensureKftcAccessToken envRefreshNoAccess dbStale 1 5000 =
      ⟨Except.error "refresh_response_missing_access_token", dbStale, 1⟩) :=
  ⟨(refresh_persist_token_set envRefreshOnlyAccess dbStale 1 5000
      ⟨none, some "R", some "U", none⟩ trOnlyAccess
      (by decide) (by decide) (by decide) rfl).1 "T2" rfl (by decide),
   (refresh_persist_token_set envRefreshNoAccess dbStale 1 5000
      ⟨none, some "R", some "U", none⟩ trNoAccess
      (by decide) (by decide) (by decide) rfl).2 (by decide)⟩

/-- C5 counterexample: refreshing user 1 of `dbStale` at `now = 5000`
with a response that has an access token but no `expires_in` persists
`kftc_token_expires_at = now` (5000 ms): the stored expiry is neither
`NULL` (unset) nor zero, contradicting the claim's "expiresAt is ... left
unset/zero" — the SQL parameter `expiresIn ?? 0` makes
`DATE_ADD(NOW(), INTERVAL 0 SECOND) = NOW()`. -/
theorem refresh_persist_expiry_cx :
    (lookupUser (ensureKftcAccessToken envRefreshOnlyAccess dbStale 1 5000).db 1).map
      UserTokenRow.kftc_token_expires_at = some (some 5000) ∧
    (lookupUser (ensureKftcAccessToken envRefreshOnlyAccess dbStale 1 5000).db 1).map
      UserTokenRow.kftc_token_expires_at ≠ some none ∧
    (lookupUser (ensureKftcAccessToken envRefreshOnlyAccess dbStale 1 5000).db 1).map
      UserTokenRow.kftc_token_expires_at ≠ some (some 0) := by
  refine ⟨by decide, by decide, by decide⟩

/-! ## Reduction and preservation lemmas for connect -/

lemma connect_some (env : ProviderEnv) (now : Int) (uid : Nat) (body : ConnectBody)
    (db : DB) (hAuth : jsTruthyStr body.kftcAuthCode = true) :
    connect env now (some uid) body db = connectAuthed env now uid body db := by
  unfold connect
  rw [if_neg (by simp [hAuth])]

lemma connectAuthed_exchange_error (env : ProviderEnv) (now : Int) (uid : Nat)
    (body : ConnectBody) (db : DB) (e : String)
    (hEx : env.exchangeResp = Except.error e) :
    connectAuthed env now uid body db =
      ⟨ConnectResult.badGateway "Failed to exchange kftcAuthCode" (some e), db⟩ := by
  unfold connectAuthed
  rw [hEx]

lemma connectAuthed_invalid_response (env : ProviderEnv) (now : Int) (uid : Nat)
    (body : ConnectBody) (db : DB) (tr : KftcTokenResponse)
    (hEx : env.exchangeResp = Except.ok tr)
    (hTok : jsTruthyStr tr.access_token = false) :
    connectAuthed env now uid body db =
      ⟨ConnectResult.badGateway "invalid_kftc_response"
        (if env.production then none else some (describeTokenResponse tr)), db⟩ := by
  unfold connectAuthed
  rw [hEx]
  simp [hTok]

lemma connectAuthed_push (env : ProviderEnv) (now : Int) (uid : Nat)
    (body : ConnectBody) (db : DB) (tr : KftcTokenResponse)
    (ts : List IncomingTransaction)
    (hEx : env.exchangeResp = Except.ok tr)
    (hTok : jsTruthyStr tr.access_token = true)
    (hBody : body.transactions = some ts)
    (hLen : 0 < ts.length) :
    connectAuthed env now uid body db =
      ⟨ConnectResult.syncCompleted (jsOrStr body.bankName "unknown")
        ((ts.map (pushRow uid)).map respOf),
       { updateUserTokens db uid (exchangeTokenRow tr now) with
         transactions := insertIgnoreTransactions db.transactions (ts.map (pushRow uid)) }⟩ := by
  unfold connectAuthed
  rw [hEx]
  simp only [hTok, not_true_eq_false, if_false, Bool.not_true, hBody]
  rw [if_pos hLen]
  rfl

lemma connectAuthed_pull (env : ProviderEnv) (now : Int) (uid : Nat)
    (body : ConnectBody) (db : DB) (tr : KftcTokenResponse)
    (hEx : env.exchangeResp = Except.ok tr)
    (hTok : jsTruthyStr tr.access_token = true)
    (hBody : body.transactions = none ∨ body.transactions = some []) :
    connectAuthed env now uid body db =
      connectPull env uid body (updateUserTokens db uid (exchangeTokenRow tr now)) := by
  unfold connectAuthed
  rw [hEx]
  cases hBody with
  | inl h => simp only [hTok, not_true_eq_false, if_false, Bool.not_true, h]
  | inr h => simp only [hTok, not_true_eq_false, if_false, Bool.not_true, h,
      List.length_nil, gt_iff_lt, lt_self_iff_false, if_false]

lemma upsertBankAccount_users_transactions (db : DB) (uid : Nat) (acc : KftcAccount) :
    (upsertBankAccount db uid acc).2.users = db.users ∧
    (upsertBankAccount db uid acc).2.transactions = db.transactions := by
  unfold upsertBankAccount
  split
  · exact ⟨rfl, rfl⟩
  · split
    · split
      · exact ⟨rfl, rfl⟩
      · exact ⟨rfl, rfl⟩
    · exact ⟨rfl, rfl⟩

lemma pullLoop_cons_skip (env : ProviderEnv) (uid : Nat)
    (fromDate toDate : Option String) (db : DB) (acc : KftcAccount)
    (rest : List KftcAccount) (hf : acc.fintech_use_num = "") :
    pullLoop env uid fromDate toDate db (acc :: rest) =
      pullLoop env uid fromDate toDate (upsertBankAccount db uid acc).2 rest := by
  conv_lhs => rw [pullLoop]
  rw [if_pos hf]

lemma pullLoop_error_preserves (env : ProviderEnv) (uid : Nat)
    (fromDate toDate : Option String) (accs : List KftcAccount) (db db2 : DB) (e : String)
    (h : pullLoop env uid fromDate toDate db accs = Except.error (e, db2)) :
    db2.users = db.users ∧ db2.transactions = db.transactions := by
  induction accs generalizing db with
  | nil => simp [pullLoop] at h
  | cons acc rest ih =>
    unfold pullLoop at h
    obtain ⟨hu, ht⟩ := upsertBankAccount_users_transactions db uid acc
    by_cases hf : acc.fintech_use_num = ""
    · rw [if_pos hf] at h
      obtain ⟨hu2, ht2⟩ := ih _ h
      exact ⟨hu2.trans hu, ht2.trans ht⟩
    · rw [if_neg hf] at h
      cases htx : env.txResp acc.fintech_use_num fromDate toDate with
      | error e2 =>
        rw [htx] at h
        cases h
        exact ⟨hu, ht⟩
      | ok rawList =>
        rw [htx] at h
        cases hrec : pullLoop env uid fromDate toDate (upsertBankAccount db uid acc).2 rest with
        | error x =>
          obtain ⟨e3, db3⟩ := x
          rw [hrec] at h
          cases h
          obtain ⟨hu2, ht2⟩ := ih _ hrec
          exact ⟨hu2.trans hu, ht2.trans ht⟩
        | ok p =>
          obtain ⟨db3, vals3⟩ := p
          rw [hrec] at h
          cases h

lemma pullLoop_ok_preserves (env : ProviderEnv) (uid : Nat)
    (fromDate toDate : Option String) (accs : List KftcAccount) (db db2 : DB)
    (vals : List TransactionRow)
    (h : pullLoop env uid fromDate toDate db accs = Except.ok (db2, vals)) :
    db2.users = db.users ∧ db2.transactions = db.transactions := by
  induction accs generalizing db vals with
  | nil =>
    unfold pullLoop at h
    cases h
    exact ⟨rfl, rfl⟩
  | cons acc rest ih =>
    unfold pullLoop at h
    obtain ⟨hu, ht⟩ := upsertBankAccount_users_transactions db uid acc
    by_cases hf : acc.fintech_use_num = ""
    · rw [if_pos hf] at h
      obtain ⟨hu2, ht2⟩ := ih _ _ h
      exact ⟨hu2.trans hu, ht2.trans ht⟩
    · rw [if_neg hf] at h
      cases htx : env.txResp acc.fintech_use_num fromDate toDate with
      | error e2 =>
        rw [htx] at h
        cases h
      | ok rawList =>
        rw [htx] at h
        cases hrec : pullLoop env uid fromDate toDate (upsertBankAccount db uid acc).2 rest with
        | error x =>
          obtain ⟨e3, db3⟩ := x
          rw [hrec] at h
          cases h
        | ok p =>
          obtain ⟨db3, vals3⟩ := p
          rw [hrec] at h
          cases h
          obtain ⟨hu2, ht2⟩ := ih _ _ hrec
          exact ⟨hu2.trans hu, ht2.trans ht⟩

lemma txKeyExists_append (rows : List TransactionRow) (r : TransactionRow)
    (uid : Nat) (k : String) :
    txKeyExists (rows ++ [r]) uid k =
      (txKeyExists rows uid k || (r.user_id == uid && r.kftc_tran_id == k)) := by
  simp [txKeyExists, List.any_append]

lemma usersLookup_usersUpdate (l : List (Nat × UserTokenRow)) (uid : Nat)
    (row old : UserTokenRow) (h : usersLookup l uid = some old) :
    usersLookup (usersUpdate l uid row) uid = some row := by
  induction l with
  | nil => simp [usersLookup] at h
  | cons p rest ih =>
    obtain ⟨k, v⟩ := p
    by_cases hk : k = uid
    · simp [usersUpdate, usersLookup, hk]
    · simp only [usersLookup, if_neg hk] at h
      simp only [usersUpdate, if_neg hk, usersLookup]
      exact ih h

lemma connectPull_userInfo_error (env : ProviderEnv) (uid : Nat) (body : ConnectBody)
    (db1 : DB) (e : String) (hui : env.userInfoResp = Except.error e) :
    connectPull env uid body db1 =
      ⟨ConnectResult.badGateway "Failed to exchange kftcAuthCode" (some e), db1⟩ := by
  unfold connectPull
  rw [hui]

lemma connectPull_accounts_error (env : ProviderEnv) (uid : Nat) (body : ConnectBody)
    (db1 : DB) (ui : KftcUserInfo) (e : String)
    (hui : env.userInfoResp = Except.ok ui) (hac : env.accountsResp = Except.error e) :
    connectPull env uid body db1 =
      ⟨ConnectResult.badGateway "Failed to exchange kftcAuthCode" (some e), db1⟩ := by
  unfold connectPull
  rw [hui]
  simp only [hac]

lemma connectPull_pullLoop_error (env : ProviderEnv) (uid : Nat) (body : ConnectBody)
    (db1 db2 : DB) (ui : KftcUserInfo) (accounts : List KftcAccount) (e : String)
    (hui : env.userInfoResp = Except.ok ui) (hac : env.accountsResp = Except.ok accounts)
    (hpl : pullLoop env uid body.fromDate body.toDate db1 accounts = Except.error (e, db2)) :
    connectPull env uid body db1 =
      ⟨ConnectResult.badGateway "Failed to exchange kftcAuthCode" (some e), db2⟩ := by
  unfold connectPull
  rw [hui]
  simp only [hac, hpl]

lemma connectPull_pullLoop_ok (env : ProviderEnv) (uid : Nat) (body : ConnectBody)
    (db1 db2 : DB) (ui : KftcUserInfo) (accounts : List KftcAccount)
    (vals : List TransactionRow)
    (hui : env.userInfoResp = Except.ok ui) (hac : env.accountsResp = Except.ok accounts)
    (hpl : pullLoop env uid body.fromDate body.toDate db1 accounts = Except.ok (db2, vals)) :
    connectPull env uid body db1 =
      (if vals.length > 0 then
        ⟨ConnectResult.syncCompleted (pullBankName ui body) (vals.map respOf),
         { db2 with transactions := insertIgnoreTransactions db2.transactions vals }⟩
      else ⟨ConnectResult.syncCompleted (pullBankName ui body) [], db2⟩) := by
  unfold connectPull
  rw [hui]
  simp only [hac, hpl]

lemma connectPull_users (env : ProviderEnv) (uid : Nat) (body : ConnectBody) (db1 : DB) :
    (connectPull env uid body db1).db.users = db1.users := by
  cases hui : env.userInfoResp with
  | error e => rw [connectPull_userInfo_error env uid body db1 e hui]
  | ok ui =>
    cases hac : env.accountsResp with
    | error e => rw [connectPull_accounts_error env uid body db1 ui e hui hac]
    | ok accounts =>
      cases hpl : pullLoop env uid body.fromDate body.toDate db1 accounts with
      | error x =>
        obtain ⟨e, db2⟩ := x
        rw [connectPull_pullLoop_error env uid body db1 db2 ui accounts e hui hac hpl]
        exact (pullLoop_error_preserves env uid body.fromDate body.toDate accounts db1 db2 e hpl).1
      | ok p =>
        obtain ⟨db2, vals⟩ := p
        rw [connectPull_pullLoop_ok env uid body db1 db2 ui accounts vals hui hac hpl]
        have h2 := (pullLoop_ok_preserves env uid body.fromDate body.toDate accounts db1 db2 vals hpl).1
        by_cases hl : vals.length > 0
        · rw [if_pos hl]
          exact h2
        · rw [if_neg hl]
          exact h2

/-! ## C1: idempotent push-mode ingestion -/

/-- C1: transaction ingestion through connect is idempotent per
`(userId, kftc_tran_id)`: pushing a transaction whose dedup key already
exists for that user adds no row, overwrites nothing (the stored
`transactions` list is unchanged) and still answers `SYNC_COMPLETED`;
pushing two transactions with distinct `kftc_tran_id` (here: otherwise
arbitrary) stores both rows. -/
theorem connect_ingestion_idempotent :
    (∀ (env : ProviderEnv) (now : Int) (uid : Nat) (body : ConnectBody) (db : DB)
        (tr : KftcTokenResponse) (t : IncomingTransaction),
      jsTruthyStr body.kftcAuthCode = true →
      env.exchangeResp = Except.ok tr →
      jsTruthyStr tr.access_token = true →
      body.transactions = some [t] →
      txKeyExists db.transactions uid t.kftc_tran_id = true →
      (connect env now (some uid) body db).db.transactions = db.transactions ∧
      (connect env now (some uid) body db).result =
        ConnectResult.syncCompleted (jsOrStr body.bankName "unknown")
          [respOf (pushRow uid t)]) ∧
    (∀ (env : ProviderEnv) (now : Int) (uid : Nat) (body : ConnectBody) (db : DB)
        (tr : KftcTokenResponse) (t1 t2 : IncomingTransaction),
      jsTruthyStr body.kftcAuthCode = true →
      env.exchangeResp = Except.ok tr →
      jsTruthyStr tr.access_token = true →
      body.transactions = some [t1, t2] →
      t1.kftc_tran_id ≠ t2.kftc_tran_id →
      txKeyExists db.transactions uid t1.kftc_tran_id = false →
      txKeyExists db.transactions uid t2.kftc_tran_id = false →
      (connect env now (some uid) body db).db.transactions =
        db.transactions ++ [pushRow uid t1, pushRow uid t2]) := by
  constructor
  · intro env now uid body db tr t hAuth hEx hTok hBody hDup
    rw [connect_some env now uid body db hAuth,
      connectAuthed_push env now uid body db tr [t] hEx hTok hBody (by simp)]
    constructor
    · show insertIgnoreTransactions db.transactions [pushRow uid t] = db.transactions
      have hKey : txKeyExists db.transactions (pushRow uid t).user_id
          (pushRow uid t).kftc_tran_id = true := hDup
      simp [insertIgnoreTransactions, hKey]
    · rfl
  · intro env now uid body db tr t1 t2 hAuth hEx hTok hBody hNe hNo1 hNo2
    rw [connect_some env now uid body db hAuth,
      connectAuthed_push env now uid body db tr [t1, t2] hEx hTok hBody (by simp)]
    show insertIgnoreTransactions db.transactions [pushRow uid t1, pushRow uid t2] =
      db.transactions ++ [pushRow uid t1, pushRow uid t2]
    have hKey1 : txKeyExists db.transactions (pushRow uid t1).user_id
        (pushRow uid t1).kftc_tran_id = false := hNo1
    have hKey2 : txKeyExists (db.transactions ++ [pushRow uid t1]) (pushRow uid t2).user_id
        (pushRow uid t2).kftc_tran_id = false := by
      rw [txKeyExists_append]
      have hne2 : ((pushRow uid t1).kftc_tran_id == (pushRow uid t2).kftc_tran_id) = false := by
        simpa [pushRow] using hNe
      rw [hne2]
      simp only [Bool.and_false, Bool.or_false]
      exact hNo2
    simp only [insertIgnoreTransactions, hKey1, hKey2, Bool.false_eq_true, if_false]
    simp [List.append_assoc]

/-- Witness for the C1 theorem: re-pushing `P1` for user 1 of `dbWithP1`
(which already stores it) leaves the stored transactions unchanged and
still answers `SYNC_COMPLETED`; pushing the distinct `P1`, `P2` into the
empty `dbNoTok` stores exactly the two rows. -/
theorem connect_ingestion_idempotent_witness :
    ((connect envOk 0 (some 1) bodyPushP1 dbWithP1).db.transactions =
        dbWithP1.transactions ∧
      (connect envOk 0 (some 1) bodyPushP1 dbWithP1).result =
        ConnectResult.syncCompleted (jsOrStr bodyPushP1.bankName "unknown")
          [respOf (pushRow 1 incP1)]) ∧
    (connect envOk 0 (some 1) bodyPushP1P2 dbNoTok).db.transactions =
      dbNoTok.transactions ++ [pushRow 1 incP1, pushRow 1 incP2] :=
  ⟨connect_ingestion_idempotent.1 envOk 0 1 bodyPushP1 dbWithP1 trFull incP1
      (by decide) rfl (by decide) rfl (by decide),
   connect_ingestion_idempotent.2 envOk 0 1 bodyPushP1P2 dbNoTok trFull incP1 incP2
      (by decide) rfl (by decide) rfl (by decide) (by decide) (by decide)⟩

/-! ## C4: exchange failure leaves no partial state -/

/-- C4 (amended): when the authorization-code exchange throws (non-2xx or
malformed JSON, both modelled as `Except.error`), connect returns a single
502 carrying the error message as `detail` and leaves the database — in
particular the user's token columns — completely unchanged; when the
exchange succeeds but the response has no (truthy) `access_token`, connect
returns a single 502 `invalid_kftc_response` with the rendered response as
`detail` only outside production (`NODE_ENV=production` omits it), again
leaving the database unchanged. -/
theorem connect_exchange_failure_no_persist (env : ProviderEnv) (now : Int)
    (uid : Nat) (body : ConnectBody) (db : DB)
    (hAuth : jsTruthyStr body.kftcAuthCode = true) :
    (∀ e, env.exchangeResp = Except.error e →
      connect env now (some uid) body db =
        ⟨ConnectResult.badGateway "Failed to exchange kftcAuthCode" (some e), db⟩) ∧
    (∀ tr, env.exchangeResp = Except.ok tr → jsTruthyStr tr.access_token = false →
      connect env now (some uid) body db =
        ⟨ConnectResult.badGateway "invalid_kftc_response"
          (if env.production then none else some (describeTokenResponse tr)), db⟩) := by
  constructor
  · intro e hEx
    rw [connect_some env now uid body db hAuth,
      connectAuthed_exchange_error env now uid body db e hEx]
  · intro tr hEx hTok
    rw [connect_some env now uid body db hAuth,
      connectAuthed_invalid_response env now uid body db tr hEx hTok]

/-- Witness for the C4 theorem: a thrown exchange and a token-less
response, both against user 1 of `dbNoTok`. -/
theorem connect_exchange_failure_no_persist_witness :
    (connect envExchangeFails 0 (some 1) bodyPull dbNoTok =
      ⟨ConnectResult.badGateway "Failed to exchange kftcAuthCode"
        (some "exchange_http_500"), dbNoTok⟩) ∧
    (connect envNoAccess 0 (some 1) bodyPull dbNoTok =
      ⟨ConnectResult.badGateway "invalid_kftc_response"
        (some (describeTokenResponse trNoAccess)), dbNoTok⟩) :=
  ⟨(connect_exchange_failure_no_persist envExchangeFails 0 1 bodyPull dbNoTok
      (by decide)).1 "exchange_http_500" rfl,
   (connect_exchange_failure_no_persist envNoAccess 0 1 bodyPull dbNoTok
      (by decide)).2 trNoAccess rfl (by decide)⟩

/-- C4 counterexample: with `NODE_ENV=production`, a successful exchange
whose response has no `access_token` yields
`502 {error: 'invalid_kftc_response'}` with NO `detail` field — the claim
says every exchange failure carries a detail.  (The token set is indeed
not persisted: the database is returned unchanged.) -/
theorem connect_invalid_response_production_cx :
    connect envProdNoAccess 0 (some 1) bodyPull dbNoTok =
      ⟨ConnectResult.badGateway "invalid_kftc_response" none, dbNoTok⟩ := by
  decide

/-! ## C9: later fetch failures keep the persisted token -/

/-- C9: once the exchange has succeeded with a usable access token, every
502 outcome of connect (which, at that point, can only arise from the
pull-mode provider fetches) leaves the token set persisted right after the
exchange in place: the users table equals the post-exchange update, and
the user's row reads back as `exchangeTokenRow`. -/
theorem fetch_failure_keeps_token (env : ProviderEnv) (now : Int) (uid : Nat)
    (body : ConnectBody) (db : DB) (tr : KftcTokenResponse)
    (hAuth : jsTruthyStr body.kftcAuthCode = true)
    (hEx : env.exchangeResp = Except.ok tr)
    (hTok : jsTruthyStr tr.access_token = true) :
    (∀ err d, (connect env now (some uid) body db).result =
        ConnectResult.badGateway err d →
      (connect env now (some uid) body db).db.users =
        (updateUserTokens db uid (exchangeTokenRow tr now)).users) ∧
    (∀ row0, lookupUser db uid = some row0 →
      ∀ err d, (connect env now (some uid) body db).result =
          ConnectResult.badGateway err d →
        lookupUser (connect env now (some uid) body db).db uid =
          some (exchangeTokenRow tr now)) := by
  have hUsers : ∀ err d, (connect env now (some uid) body db).result =
      ConnectResult.badGateway err d →
      (connect env now (some uid) body db).db.users =
        (updateUserTokens db uid (exchangeTokenRow tr now)).users := by
    intro err d hres
    rw [connect_some env now uid body db hAuth] at hres ⊢
    cases hBody : body.transactions with
    | none =>
      rw [connectAuthed_pull env now uid body db tr hEx hTok (Or.inl hBody)]
      exact connectPull_users env uid body _
    | some ts =>
      cases ts with
      | nil =>
        rw [connectAuthed_pull env now uid body db tr hEx hTok (Or.inr hBody)]
        exact connectPull_users env uid body _
      | cons t rest =>
        rw [connectAuthed_push env now uid body db tr (t :: rest) hEx hTok hBody
          (by simp)] at hres
        simp at hres
  constructor
  · exact hUsers
  · intro row0 hLook err d hres
    have h1 := hUsers err d hres
    unfold lookupUser
    rw [h1]
    exact usersLookup_usersUpdate db.users uid (exchangeTokenRow tr now) row0 hLook

/-- Witness for the C9 theorem: with `envTwoAccounts` the fetch of
account `fB`'s history throws after the exchange succeeded, connect
answers 502, and user 1's token row still holds the exchanged token set. -/
theorem fetch_failure_keeps_token_witness :
    lookupUser (connect envTwoAccounts 0 (some 1) bodyPull dbNoTok).db 1 =
      some (exchangeTokenRow trFull 0) :=
  (fetch_failure_keeps_token envTwoAccounts 0 1 bodyPull dbNoTok trFull
      (by decide) rfl (by decide)).2
    ⟨none, none, none, none⟩ (by decide)
    "Failed to exchange kftcAuthCode" (some "history_fetch_failed") (by decide)

/-! ## C10: an empty transactions array is pull mode -/

/-- C10: connect enters push mode only for a non-empty `transactions`
array.  An empty array behaves exactly like an absent field (pull mode):
the outputs coincide, and the provider fetch really happens (a failing
user-info fetch surfaces as a 502 even though `transactions = []`); a
non-empty array is ingested in push mode, echoing the pushed rows. -/
theorem empty_transactions_pull_mode :
    (∀ (env : ProviderEnv) (now : Int) (userId : Option Nat) (body : ConnectBody) (db : DB),
      connect env now userId { body with transactions := some [] } db =
        connect env now userId { body with transactions := none } db) ∧
    (∀ (env : ProviderEnv) (now : Int) (uid : Nat) (body : ConnectBody) (db : DB)
        (tr : KftcTokenResponse) (e : String),
      jsTruthyStr body.kftcAuthCode = true →
      env.exchangeResp = Except.ok tr →
      jsTruthyStr tr.access_token = true →
      body.transactions = some [] →
      env.userInfoResp = Except.error e →
      (connect env now (some uid) body db).result =
        ConnectResult.badGateway "Failed to exchange kftcAuthCode" (some e)) ∧
    (∀ (env : ProviderEnv) (now : Int) (uid : Nat) (body : ConnectBody) (db : DB)
        (tr : KftcTokenResponse) (t : IncomingTransaction) (ts : List IncomingTransaction),
      jsTruthyStr body.kftcAuthCode = true →
      env.exchangeResp = Except.ok tr →
      jsTruthyStr tr.access_token = true →
      body.transactions = some (t :: ts) →
      (connect env now (some uid) body db).result =
        ConnectResult.syncCompleted (jsOrStr body.bankName "unknown")
          (((t :: ts).map (pushRow uid)).map respOf)) := by
  refine ⟨fun env now userId body db => rfl, ?_, ?_⟩
  · intro env now uid body db tr e hAuth hEx hTok hBody hui
    rw [connect_some env now uid body db hAuth,
      connectAuthed_pull env now uid body db tr hEx hTok (Or.inr hBody),
      connectPull_userInfo_error env uid body _ e hui]
  · intro env now uid body db tr t ts hAuth hEx hTok hBody
    rw [connect_some env now uid body db hAuth,
      connectAuthed_push env now uid body db tr (t :: ts) hEx hTok hBody (by simp)]

/-- Witness for the C10 theorem: concrete empty-array vs absent bodies,
and a failing user-info fetch reached from an empty-array body. -/
theorem empty_transactions_pull_mode_witness :
    (connect envOk 0 (some 1) { bodyPull with transactions := some [] } dbNoTok =
      connect envOk 0 (some 1) { bodyPull with transactions := none } dbNoTok) ∧
    (connect envUserInfoFails 0 (some 1) bodyPullEmpty dbNoTok).result =
      ConnectResult.badGateway "Failed to exchange kftcAuthCode"
        (some "userinfo_http_500") ∧
    (connect envOk 0 (some 1) bodyPushP1 dbNoTok).result =
      ConnectResult.syncCompleted "unknown" [respOf (pushRow 1 incP1)] :=
  ⟨empty_transactions_pull_mode.1 envOk 0 (some 1) bodyPull dbNoTok,
   empty_transactions_pull_mode.2.1 envUserInfoFails 0 1 bodyPullEmpty dbNoTok trFull
     "userinfo_http_500" (by decide) rfl (by decide) rfl rfl,
   empty_transactions_pull_mode.2.2 envOk 0 1 bodyPushP1 dbNoTok trFull incP1 []
     (by decide) rfl (by decide) rfl⟩

/-! ## C6: the stored pull-mode timestamp -/

lemma stringMk_eq_empty_iff (l : List Char) : String.mk l = "" ↔ l = [] := by
  constructor
  · intro h
    have := congrArg String.data h
    simpa using this
  · intro h
    rw [h]

lemma timePart_inbounds (s : String) (start : Nat) (h : start < s.toList.length) :
    timePart (some s) start = String.mk ((s.toList.drop start).take 2) := by
  have hne : ¬ String.mk ((s.toList.drop start).take 2) = "" := by
    rw [stringMk_eq_empty_iff, List.take_eq_nil_iff]
    push_neg
    refine ⟨by norm_num, ?_⟩
    rw [Ne, List.drop_eq_nil_iff]
    omega
  show (if String.mk ((s.toList.drop start).take 2) = "" then "00"
        else String.mk ((s.toList.drop start).take 2)) =
      String.mk ((s.toList.drop start).take 2)
  rw [if_neg hne]

/-- C6 (amended): the stored pull-mode `transacted_at` is
`` `${tran_date}T${hh}:${mm}:${ss}` `` — the provider date is glued as-is
in `YYYYMMDD` form (no dashes inserted), the time parts are the two-char
slices of `tran_time`, and a missing `tran_time` yields `T00:00:00`. -/
theorem pull_timestamp_format (uid : Nat) (aid : Option Nat)
    (t : KftcTransactionRaw) (s : String) :
    (t.tran_time = some s → 6 ≤ s.toList.length →
      (pullRow uid aid t).transacted_at =
        t.tran_date ++ "T" ++ String.mk (s.toList.take 2) ++ ":" ++
          String.mk ((s.toList.drop 2).take 2) ++ ":" ++
          String.mk ((s.toList.drop 4).take 2)) ∧
    (t.tran_time = none →
      (pullRow uid aid t).transacted_at = t.tran_date ++ "T00:00:00") := by
  constructor
  · intro ht hlen
    show t.tran_date ++ "T" ++ timePart t.tran_time 0 ++ ":" ++ timePart t.tran_time 2 ++
        ":" ++ timePart t.tran_time 4 =
      t.tran_date ++ "T" ++ String.mk (s.toList.take 2) ++ ":" ++
        String.mk ((s.toList.drop 2).take 2) ++ ":" ++ String.mk ((s.toList.drop 4).take 2)
    rw [ht, timePart_inbounds s 0 (by omega), timePart_inbounds s 2 (by omega),
      timePart_inbounds s 4 (by omega)]
    rw [List.drop_zero]
  · intro ht
    show t.tran_date ++ "T" ++ timePart t.tran_time 0 ++ ":" ++ timePart t.tran_time 2 ++
        ":" ++ timePart t.tran_time 4 = t.tran_date ++ "T00:00:00"
    rw [ht]
    show t.tran_date ++ "T" ++ "00" ++ ":" ++ "00" ++ ":" ++ "00" = t.tran_date ++ "T00:00:00"
    rw [String.append_assoc, String.append_assoc, String.append_assoc,
      String.append_assoc, String.append_assoc]
    rfl

/-- Witness for the C6 theorem: the concrete raw transaction `rawT1`
(date `20240101`, time `123456`) and one with no time. -/
theorem pull_timestamp_format_witness :
    (pullRow 1 (some 1) rawT1).transacted_at = "20240101T12:34:56" ∧
    (pullRow 1 (some 1) { rawT1 with tran_time := none }).transacted_at =
      "20240101T00:00:00" :=
  ⟨by
    have h := (pull_timestamp_format 1 (some 1) rawT1 "123456").1 rfl (by decide)
    simpa using h,
   by
    have h := (pull_timestamp_format 1 (some 1) { rawT1 with tran_time := none } "").2 rfl
    simpa using h⟩

/-- C6 counterexample: for `rawT1` the stored timestamp is
`20240101T12:34:56`, not the dashed `2024-01-01T12:34:56` the claim's
`YYYY-MM-DDTHH:MM:SS` format demands — the code never inserts dashes into
`tran_date`. -/
theorem pull_timestamp_no_dashes_cx :
    (pullRow 1 (some 1) rawT1).transacted_at = "20240101T12:34:56" ∧
    claimDashTimestamp "20240101" "12" "34" "56" = "2024-01-01T12:34:56" ∧
    (pullRow 1 (some 1) rawT1).transacted_at ≠
      claimDashTimestamp "20240101" "12" "34" "56" := by
  refine ⟨by decide, by decide, by decide⟩

/-! ## C7: pull-mode batching across accounts -/

/-- C7 (amended): pull mode does not commit per account.  All accounts'
value rows are accumulated in memory and inserted with one single
`INSERT IGNORE` after every account's history has been fetched; whenever
pull mode answers 502 (any history fetch having thrown), the stored
transactions are completely unchanged — no account's batch, not even one
whose history was already fetched, has been committed (account upserts,
by contrast, do persist). -/
theorem pull_single_combined_insert (env : ProviderEnv) (uid : Nat)
    (body : ConnectBody) (db1 : DB) :
    (∀ err d, (connectPull env uid body db1).result = ConnectResult.badGateway err d →
      (connectPull env uid body db1).db.transactions = db1.transactions) ∧
    (∀ (ui : KftcUserInfo) (accounts : List KftcAccount) (db2 : DB)
        (vals : List TransactionRow),
      env.userInfoResp = Except.ok ui →
      env.accountsResp = Except.ok accounts →
      pullLoop env uid body.fromDate body.toDate db1 accounts = Except.ok (db2, vals) →
      (connectPull env uid body db1).db.transactions =
        insertIgnoreTransactions db1.transactions vals) := by
  constructor
  · intro err d hres
    cases hui : env.userInfoResp with
    | error e => rw [connectPull_userInfo_error env uid body db1 e hui]
    | ok ui =>
      cases hac : env.accountsResp with
      | error e => rw [connectPull_accounts_error env uid body db1 ui e hui hac]
      | ok accounts =>
        cases hpl : pullLoop env uid body.fromDate body.toDate db1 accounts with
        | error x =>
          obtain ⟨e, db2⟩ := x
          rw [connectPull_pullLoop_error env uid body db1 db2 ui accounts e hui hac hpl]
          exact (pullLoop_error_preserves env uid body.fromDate body.toDate accounts
            db1 db2 e hpl).2
        | ok p =>
          obtain ⟨db2, vals⟩ := p
          rw [connectPull_pullLoop_ok env uid body db1 db2 ui accounts vals hui hac hpl]
            at hres
          by_cases hl : vals.length > 0
          · rw [if_pos hl] at hres
            simp at hres
          · rw [if_neg hl] at hres
            simp at hres
  · intro ui accounts db2 vals hui hac hpl
    rw [connectPull_pullLoop_ok env uid body db1 db2 ui accounts vals hui hac hpl]
    have ht := (pullLoop_ok_preserves env uid body.fromDate body.toDate accounts
      db1 db2 vals hpl).2
    by_cases hl : vals.length > 0
    · rw [if_pos hl]
      show insertIgnoreTransactions db2.transactions vals =
        insertIgnoreTransactions db1.transactions vals
      rw [ht]
    · rw [if_neg hl]
      have hnil : vals = [] := by
        cases vals with
        | nil => rfl
        | cons v vs => simp at hl
      subst hnil
      show db2.transactions = insertIgnoreTransactions db1.transactions []
      rw [ht]
      rfl

/-- Witness for the C7 theorem: with both histories failing-free
(`envTwoAccountsOk`) the two accounts' rows are inserted as one combined
batch; with `envTwoAccounts` (account `fB`'s history throws) connectPull
answers 502 and stores nothing. -/
theorem pull_single_combined_insert_witness :
    (connectPull envTwoAccounts 1 bodyPull dbNoTok).db.transactions =
      dbNoTok.transactions ∧
    (connectPull envTwoAccountsOk 1 bodyPull dbNoTok).db.transactions =
      insertIgnoreTransactions dbNoTok.transactions
        [pullRow 1 (some 1) rawT1, pullRow 1 (some 2) rawT2] :=
  ⟨(pull_single_combined_insert envTwoAccounts 1 bodyPull dbNoTok).1
      "Failed to exchange kftcAuthCode" (some "history_fetch_failed") (by decide),
   (pull_single_combined_insert envTwoAccountsOk 1 bodyPull dbNoTok).2
      ⟨some "KB"⟩ [accA, accB] dbTwoAccts
      [pullRow 1 (some 1) rawT1, pullRow 1 (some 2) rawT2] rfl rfl (by rfl)⟩

/-- C7 counterexample: account `fA`'s history was fetched successfully
(one transaction) before `fB`'s fetch threw, yet connect stores NO
transaction at all — `fA`'s batch is not committed, contradicting the
claim that batches from different accounts commit independently and that
already-fetched batches remain stored; only the two account upserts
survive. -/
theorem pull_account_failure_cx :
    envTwoAccounts.txResp "fA" none none = Except.ok [rawT1] ∧
    (connect envTwoAccounts 0 (some 1) bodyPull dbNoTok).result =
      ConnectResult.badGateway "Failed to exchange kftcAuthCode"
        (some "history_fetch_failed") ∧
    (connect envTwoAccounts 0 (some 1) bodyPull dbNoTok).db.transactions = [] ∧
    (connect envTwoAccounts 0 (some 1) bodyPull dbNoTok).db.bank_accounts.length = 2 := by
  refine ⟨rfl, by decide, by decide, by decide⟩

/-! ## C8: bank-account upsert keeps the natural key unique -/

lemma accMatches_iff (uid : Nat) (key : String) (r : BankAccountRow) :
    accMatches uid key r = true ↔ r.user_id = uid ∧ r.account_num = key := by
  simp [accMatches]

lemma countP_key_le_one (l : List BankAccountRow) (uid : Nat) (key : String)
    (hp : l.Pairwise (fun a b => ¬ (a.user_id = b.user_id ∧ a.account_num = b.account_num))) :
    l.countP (accMatches uid key) ≤ 1 := by
  induction l with
  | nil => simp
  | cons a l ih =>
    rw [List.pairwise_cons] at hp
    obtain ⟨ha, hl⟩ := hp
    rw [List.countP_cons]
    by_cases hm : accMatches uid key a = true
    · have hz : l.countP (accMatches uid key) = 0 := by
        rw [List.countP_eq_zero]
        intro b hb hmb
        obtain ⟨h1, h2⟩ := (accMatches_iff uid key a).mp hm
        obtain ⟨h3, h4⟩ := (accMatches_iff uid key b).mp hmb
        exact ha b hb ⟨h1.trans h3.symm, h2.trans h4.symm⟩
      rw [hz, if_pos hm]
    · rw [if_neg hm]
      have := ih hl
      omega

lemma upsert_insert_case (db : DB) (uid : Nat) (acc : KftcAccount)
    (hKey : ¬ jsOrStr acc.account_num acc.fintech_use_num = "")
    (hf : db.bank_accounts.find?
      (accMatches uid (jsOrStr acc.account_num acc.fintech_use_num)) = none) :
    upsertBankAccount db uid acc =
      (some db.nextAccountId,
       { db with
         bank_accounts := db.bank_accounts ++
           [⟨db.nextAccountId, uid, acc.bank_name.getD "unknown",
             jsOrStr acc.account_num acc.fintech_use_num, acc.balance_amt⟩],
         nextAccountId := db.nextAccountId + 1 }) := by
  unfold upsertBankAccount
  rw [if_neg hKey]
  simp only [hf]

lemma upsert_update_case (db : DB) (uid : Nat) (acc : KftcAccount) (r : BankAccountRow)
    (hKey : ¬ jsOrStr acc.account_num acc.fintech_use_num = "")
    (hf : db.bank_accounts.find?
      (accMatches uid (jsOrStr acc.account_num acc.fintech_use_num)) = some r)
    (hid : r.id ≠ 0) :
    upsertBankAccount db uid acc =
      (some r.id,
       { db with bank_accounts := db.bank_accounts.map (fun x =>
           if x.id = r.id then
             { x with bank_name := acc.bank_name.getD "unknown",
                      balance := acc.balance_amt }
           else x) }) := by
  unfold upsertBankAccount
  rw [if_neg hKey]
  simp only [hf]
  rw [if_pos hid]

lemma accountsInv_append_new (db : DB) (row : BankAccountRow) (hInv : accountsInv db)
    (hid : row.id = db.nextAccountId)
    (hnew : ∀ r ∈ db.bank_accounts,
      ¬ (r.user_id = row.user_id ∧ r.account_num = row.account_num)) :
    accountsInv
      { db with
        bank_accounts := db.bank_accounts ++ [row],
        nextAccountId := db.nextAccountId + 1 } := by
  obtain ⟨hB, hN, hI, hK⟩ := hInv
  refine ⟨?_, by show 0 < db.nextAccountId + 1; omega, ?_, ?_⟩
  · intro r hr
    rcases List.mem_append.mp hr with h | h
    · obtain ⟨h1, h2⟩ := hB r h
      refine ⟨h1, ?_⟩
      show r.id < db.nextAccountId + 1
      omega
    · have heq : r = row := by simpa using h
      subst heq
      rw [hid]
      exact ⟨hN, by show db.nextAccountId < db.nextAccountId + 1; omega⟩
  · rw [List.pairwise_append]
    refine ⟨hI, by simp, ?_⟩
    intro a ha b hb
    have heq : b = row := by simpa using hb
    subst heq
    obtain ⟨_, h2⟩ := hB a ha
    rw [hid]
    omega
  · rw [List.pairwise_append]
    refine ⟨hK, by simp, ?_⟩
    intro a ha b hb
    have heq : b = row := by simpa using hb
    subst heq
    exact hnew a ha

lemma accountsInv_map_update (db : DB) (rid : Nat) (bn : String) (bal : Option Int)
    (hInv : accountsInv db) :
    accountsInv { db with bank_accounts := db.bank_accounts.map (fun x =>
      if x.id = rid then { x with bank_name := bn, balance := bal } else x) } := by
  obtain ⟨hB, hN, hI, hK⟩ := hInv
  have hfid : ∀ x : BankAccountRow,
      ((fun x => if x.id = rid then
        { x with bank_name := bn, balance := bal } else x) x).id = x.id := by
    intro x
    by_cases h : x.id = rid <;> simp [h]
  have hfuser : ∀ x : BankAccountRow,
      ((fun x => if x.id = rid then
        { x with bank_name := bn, balance := bal } else x) x).user_id = x.user_id := by
    intro x
    by_cases h : x.id = rid <;> simp [h]
  have hfnum : ∀ x : BankAccountRow,
      ((fun x => if x.id = rid then
        { x with bank_name := bn, balance := bal } else x) x).account_num = x.account_num := by
    intro x
    by_cases h : x.id = rid <;> simp [h]
  refine ⟨?_, hN, ?_, ?_⟩
  · intro r hr
    obtain ⟨y, hy, rfl⟩ := List.mem_map.mp hr
    rw [hfid y]
    exact hB y hy
  · refine List.Pairwise.map _ (fun a b hab => ?_) hI
    rw [hfid a, hfid b]
    exact hab
  · refine List.Pairwise.map _ (fun a b hab => ?_) hK
    rw [hfuser a, hfuser b, hfnum a, hfnum b]
    exact hab

lemma keyCount_map_update (l : List BankAccountRow) (rid : Nat) (bn : String)
    (bal : Option Int) (uid : Nat) (key : String) :
    (l.map (fun x => if x.id = rid then
        { x with bank_name := bn, balance := bal } else x)).countP (accMatches uid key) =
      l.countP (accMatches uid key) := by
  rw [List.countP_map]
  refine List.countP_congr (fun x _ => ?_)
  have hpt : accMatches uid key ((fun x => if x.id = rid then
      { x with bank_name := bn, balance := bal } else x) x) = accMatches uid key x := by
    by_cases h : x.id = rid <;> simp [accMatches, h]
  rw [Function.comp_apply, hpt]

/-- C8: `upsertBankAccount` keeps the `(userId, accountNumber)` natural
key unique.  Under the table invariant and a truthy key: the invariant is
preserved; afterwards exactly one row carries the key; when no row carried
the key a single new row (with the fresh auto-increment id) is appended
and its id returned; when a row carried the key that row's `bank_name` and
`balance` are updated in place and its id returned; and a pull-mode batch
for one unseen account creates exactly one row while every mapped
transaction references its id. -/
theorem upsert_bank_account_unique (db : DB) (uid : Nat) (acc : KftcAccount)
    (hInv : accountsInv db)
    (hKey : jsOrStr acc.account_num acc.fintech_use_num ≠ "") :
    accountsInv (upsertBankAccount db uid acc).2 ∧
    keyCount (upsertBankAccount db uid acc).2 uid
      (jsOrStr acc.account_num acc.fintech_use_num) = 1 ∧
    (keyCount db uid (jsOrStr acc.account_num acc.fintech_use_num) = 0 →
      upsertBankAccount db uid acc =
        (some db.nextAccountId,
         { db with
           bank_accounts := db.bank_accounts ++
             [⟨db.nextAccountId, uid, acc.bank_name.getD "unknown",
               jsOrStr acc.account_num acc.fintech_use_num, acc.balance_amt⟩],
           nextAccountId := db.nextAccountId + 1 })) ∧
    (∀ r ∈ db.bank_accounts, r.user_id = uid →
      r.account_num = jsOrStr acc.account_num acc.fintech_use_num →
      upsertBankAccount db uid acc =
        (some r.id,
         { db with bank_accounts := db.bank_accounts.map (fun x =>
             if x.id = r.id then
               { x with bank_name := acc.bank_name.getD "unknown",
                        balance := acc.balance_amt }
             else x) })) ∧
    (∀ (env : ProviderEnv) (fromDate toDate : Option String)
        (L : List KftcTransactionRaw),
      keyCount db uid (jsOrStr acc.account_num acc.fintech_use_num) = 0 →
      acc.fintech_use_num ≠ "" →
      env.txResp acc.fintech_use_num fromDate toDate = Except.ok L →
      pullLoop env uid fromDate toDate db [acc] =
        Except.ok ((upsertBankAccount db uid acc).2,
          L.map (pullRow uid (some db.nextAccountId))) ∧
      (∀ v ∈ L.map (pullRow uid (some db.nextAccountId)),
        v.account_id = some db.nextAccountId) ∧
      (upsertBankAccount db uid acc).2.bank_accounts.length =
        db.bank_accounts.length + 1) := by
  cases hf : db.bank_accounts.find?
      (accMatches uid (jsOrStr acc.account_num acc.fintech_use_num)) with
  | none =>
    have hnomatch := List.find?_eq_none.mp hf
    have hEq := upsert_insert_case db uid acc hKey hf
    have hCnt0 : keyCount db uid (jsOrStr acc.account_num acc.fintech_use_num) = 0 := by
      unfold keyCount
      rw [List.countP_eq_zero]
      exact hnomatch
    refine ⟨?_, ?_, fun _ => hEq, ?_, ?_⟩
    · rw [hEq]
      refine accountsInv_append_new db _ hInv rfl ?_
      intro r hr hcontra
      exact hnomatch r hr
        ((accMatches_iff uid (jsOrStr acc.account_num acc.fintech_use_num) r).mpr hcontra)
    · rw [hEq]
      show (db.bank_accounts ++
        ([⟨db.nextAccountId, uid, acc.bank_name.getD "unknown",
          jsOrStr acc.account_num acc.fintech_use_num, acc.balance_amt⟩] :
            List BankAccountRow)).countP
          (accMatches uid (jsOrStr acc.account_num acc.fintech_use_num)) = 1
      rw [List.countP_append]
      have h0 : db.bank_accounts.countP
          (accMatches uid (jsOrStr acc.account_num acc.fintech_use_num)) = 0 := hCnt0
      rw [h0]
      simp [accMatches]
    · intro r hr h1 h2
      exact absurd
        ((accMatches_iff uid (jsOrStr acc.account_num acc.fintech_use_num) r).mpr ⟨h1, h2⟩)
        (hnomatch r hr)
    · intro env fromDate toDate L hCnt hfin htx
      refine ⟨?_, ?_, ?_⟩
      · simp only [pullLoop]
        rw [if_neg hfin]
        simp only [htx, hEq]
        simp
      · intro v hv
        obtain ⟨t, ht, rfl⟩ := List.mem_map.mp hv
        rfl
      · rw [hEq]
        show (db.bank_accounts ++
          ([⟨db.nextAccountId, uid, acc.bank_name.getD "unknown",
            jsOrStr acc.account_num acc.fintech_use_num, acc.balance_amt⟩] :
              List BankAccountRow)).length =
          db.bank_accounts.length + 1
        simp
  | some r₀ =>
    have hr₀mem := List.mem_of_find?_eq_some hf
    have hr₀match := List.find?_some hf
    obtain ⟨hpos, hlt⟩ := hInv.1 r₀ hr₀mem
    have hid0 : r₀.id ≠ 0 := by omega
    have hEq := upsert_update_case db uid acc r₀ hKey hf hid0
    have hCntPos : 0 < keyCount db uid (jsOrStr acc.account_num acc.fintech_use_num) := by
      unfold keyCount
      rw [List.countP_pos_iff]
      exact ⟨r₀, hr₀mem, hr₀match⟩
    have hCnt1 : keyCount db uid (jsOrStr acc.account_num acc.fintech_use_num) = 1 := by
      have hle := countP_key_le_one db.bank_accounts uid
        (jsOrStr acc.account_num acc.fintech_use_num) hInv.2.2.2
      unfold keyCount at hCntPos ⊢
      omega
    refine ⟨?_, ?_, ?_, ?_, ?_⟩
    · rw [hEq]
      exact accountsInv_map_update db r₀.id (acc.bank_name.getD "unknown")
        acc.balance_amt hInv
    · rw [hEq]
      show (db.bank_accounts.map (fun x =>
          if x.id = r₀.id then
            { x with bank_name := acc.bank_name.getD "unknown",
                     balance := acc.balance_amt }
          else x)).countP
          (accMatches uid (jsOrStr acc.account_num acc.fintech_use_num)) = 1
      rw [keyCount_map_update]
      exact hCnt1
    · intro hCnt
      exact absurd hCnt (by omega)
    · intro r hr h1 h2
      have hrmatch := (accMatches_iff uid
        (jsOrStr acc.account_num acc.fintech_use_num) r).mpr ⟨h1, h2⟩
      have hsym : Symmetric (fun a b : BankAccountRow =>
          ¬ (a.user_id = b.user_id ∧ a.account_num = b.account_num)) := by
        intro a b hab hc
        exact hab ⟨hc.1.symm, hc.2.symm⟩
      have heq : r = r₀ := by
        by_contra hne
        have hR := (hInv.2.2.2).forall hsym hr hr₀mem hne
        obtain ⟨hA, hB2⟩ := (accMatches_iff uid
          (jsOrStr acc.account_num acc.fintech_use_num) r).mp hrmatch
        obtain ⟨hC, hD⟩ := (accMatches_iff uid
          (jsOrStr acc.account_num acc.fintech_use_num) r₀).mp hr₀match
        exact hR ⟨hA.trans hC.symm, hB2.trans hD.symm⟩
      rw [heq]
      exact hEq
    · intro env fromDate toDate L hCnt hfin htx
      exact absurd hCnt (by omega)

/-- Witness for the C8 theorem: upserting the unseen account `accA` into
`dbNoTok` (empty `bank_accounts`, invariant holds trivially) creates
exactly one row with id 1, and the single-account pull loop maps its one
raw transaction onto that id. -/
theorem upsert_bank_account_unique_witness :
    accountsInv (upsertBankAccount dbNoTok 1 accA).2 ∧
    keyCount (upsertBankAccount dbNoTok 1 accA).2 1 "111" = 1 ∧
    pullLoop envTwoAccountsOk 1 none none dbNoTok [accA] =
      Except.ok ((upsertBankAccount dbNoTok 1 accA).2,
        [rawT1].map (pullRow 1 (some 1))) := by
  have h := upsert_bank_account_unique dbNoTok 1 accA (by decide) (by decide)
  refine ⟨h.1, h.2.1, (h.2.2.2.2 envTwoAccountsOk none none [rawT1]
    (by decide) (by decide) rfl).1⟩

end Bank
